import Mathlib

/-!
# Verification of the CSV-to-chart pipeline in `PROJECT/App/views.py`

Shallow embedding of the three core functions of the repository:
`_parse_csv`, `_build_dataset_options` and `_build_radar_chart`.

Conventions of the embedding:
* Python `float` values are modelled as rationals (`ℚ`); the built-in
  `float(str)` conversion is modelled by `pyFloat?` restricted to finite
  decimal literals with an optional exponent (special spellings such as
  `inf`/`nan` and digit underscores are outside the numeric domain of the
  model and simply fail to parse).
* A Python `dict` (insertion ordered, unique keys) is modelled as an
  association list scanned front to back; `dictSet` models `d[k] = v`
  (overwrite in place or append) and `dictSetdefault` models
  `d.setdefault(k, v)` (insert only if absent).
* The embedding starts from the row list produced by `csv.reader`
  (a `List (List String)`); byte decoding, BOM stripping and CSV quoting
  happen before the logic under verification.
* Python's `str.strip()` is modelled by `pyStrip` (a structurally
  recursive trim over the character list).
-/

namespace Views

/-- A numeric series: one `Option ℚ` per period; `none` marks an
unparseable or blank cell (Python `None`). -/
abbrev Series := List (Option ℚ)

/-- `row_lookup`: an insertion-ordered mapping from label to series,
modelled as an association list (first occurrence of a key wins on
lookup, matching a Python dict that never stores duplicate keys). -/
abbrev RowLookup := List (String × Series)

/-- Model of Python `d[k] = v` on a dict: overwrite the first binding of
`k` in place, or append a new binding at the end. -/
def dictSet (m : RowLookup) (k : String) (v : Series) : RowLookup :=
  match m with
  | [] => [(k, v)]
  | (k₀, v₀) :: rest => if k₀ = k then (k, v) :: rest else (k₀, v₀) :: dictSet rest k v

/-- Model of Python `d.setdefault(k, v)`: insert `(k, v)` at the end only
when `k` is not already a key. -/
def dictSetdefault (m : RowLookup) (k : String) (v : Series) : RowLookup :=
  if (m.lookup k).isSome then m else m ++ [(k, v)]

/-- Drop leading whitespace characters. -/
def dropLeading (cs : List Char) : List Char :=
  match cs with
  | [] => []
  | c :: rest => if c.isWhitespace then dropLeading rest else c :: rest

/-- Model of Python's `str.strip()` (strip leading and trailing
whitespace; modelled over the ASCII whitespace class of `Char.isWhitespace`). -/
def pyStrip (s : String) : String :=
  ⟨((dropLeading s.data).reverse |> dropLeading).reverse⟩

/-- Digits to a natural number (the value of a digit run). -/
def digitsVal (cs : List Char) : Nat :=
  cs.foldl (fun a c => a * 10 + (c.toNat - 48)) 0

/-- Strip an optional leading sign, returning the sign as `±1`. -/
def readSign : List Char → Int × List Char
  | '+' :: rest => (1, rest)
  | '-' :: rest => (-1, rest)
  | cs => (1, cs)

/-- Parse the mantissa part of a decimal literal: digits with an optional
decimal point (`"12"`, `"12."`, `".5"`, `"12.5"`). -/
def parseMantissa (cs : List Char) : Option ℚ :=
  match cs.splitOn '.' with
  | [intp] =>
      if intp ≠ [] ∧ intp.all Char.isDigit then some (digitsVal intp) else none
  | [intp, fracp] =>
      if (intp ≠ [] ∨ fracp ≠ []) ∧ intp.all Char.isDigit ∧ fracp.all Char.isDigit then
        some ((digitsVal intp : ℚ) + (digitsVal fracp : ℚ) / (10 : ℚ) ^ fracp.length)
      else none
  | _ => none

/-- Parse the exponent part of a decimal literal: optional sign, digits. -/
def parseExp (cs : List Char) : Option Int :=
  let (sg, rest) := readSign cs
  if rest ≠ [] ∧ rest.all Char.isDigit then some (sg * digitsVal rest) else none

/-- Model of Python's `float(str)` on finite decimal literals:
optional sign, mantissa, optional `e`/`E` exponent. -/
def pyFloat? (s : String) : Option ℚ :=
  let (sg, cs) := readSign (s.data.map Char.toLower)
  match cs.splitOn 'e' with
  | [m] => (parseMantissa m).map (fun q => (sg : ℚ) * q)
  | [m, e] =>
      match parseMantissa m, parseExp e with
      | some q, some ex => some ((sg : ℚ) * q * (10 : ℚ) ^ ex)
      | _, _ => none
  | _ => none

/-- One numeric cell of `_parse_csv`'s inner loop: strip, blank → `None`,
otherwise attempt float conversion, failure → `None` (never raises). -/
def parseCell (s : String) : Option ℚ :=
  let t := pyStrip s
  if t = "" then none else pyFloat? t

/-- `values[-period_count:] if period_count else values`, then right-pad
with `""` up to `period_count` (Python appends
`[""] * (period_count - len(segment))`; `Nat` subtraction makes the
`len < period_count` guard implicit). -/
def numericSegmentOf (periodCount : Nat) (values : List String) : List String :=
  let seg := if periodCount ≠ 0 then values.drop (values.length - periodCount) else values
  seg ++ List.replicate (periodCount - seg.length) ""

/-- `chart_datasets` entry: `{"label": ..., "data": ...}`. -/
structure ChartDataset where
  label : String
  data : Series
deriving Repr, DecidableEq

/-- Mutable state of `_parse_csv`'s row loop: `table_rows`,
`chart_datasets` and `row_lookup`. -/
structure ParseState where
  tableRows : List (List String)
  chartDatasets : List ChartDataset
  rowLookup : RowLookup
deriving Repr, DecidableEq

/-- One descriptor registration:
`descriptor = descriptor.strip(); if descriptor: row_lookup.setdefault(descriptor, numeric_values)`. -/
def registerDescriptor (v : Series) (m : RowLookup) (d : String) : RowLookup :=
  if pyStrip d = "" then m else dictSetdefault m (pyStrip d) v

/-- The trimmed primary label of a row, with the `"未設定"` placeholder for
an empty label; `none` for the (already filtered) empty row. -/
def rowLabel : List String → Option String
  | [] => none
  | first :: _ => some (if pyStrip first = "" then "未設定" else pyStrip first)

/-- One iteration of `_parse_csv`'s `for row in rows[1:]` loop.
`metadata_columns = len(values) - period_count` with the `> 0` guard is
subsumed by `Nat` truncated subtraction (`take 0` registers nothing). -/
def processRow (periodCount : Nat) (st : ParseState) (row : List String) : ParseState :=
  match row with
  | [] => st
  | first :: values =>
    let label := if pyStrip first = "" then "未設定" else pyStrip first
    let tableRows := st.tableRows ++ [label :: values]
    let numericValues := (numericSegmentOf periodCount values).map parseCell
    let hasNumber := numericValues.any Option.isSome
    if hasNumber then
      let lookup₁ := dictSet st.rowLookup label numericValues
      let descriptors := values.take (values.length - periodCount)
      { tableRows := tableRows
        chartDatasets := st.chartDatasets ++ [⟨label, numericValues⟩]
        rowLookup := descriptors.foldl (registerDescriptor numericValues) lookup₁ }
    else
      { st with tableRows := tableRows }

/-- The typed errors raised by `_parse_csv` (`ValueError` messages). -/
inductive ParseError where
  | emptyInput      -- "CSVにデータがありません。"
  | malformedHeader -- "CSVの列が不足しています。"
  | noNumericData   -- "グラフ化可能な数値データが見つかりませんでした。"
deriving Repr, DecidableEq

/-- The dict returned by `_parse_csv` on success. -/
structure ParseResult where
  headers : List String
  rows : List (List String)
  periods : List String
  datasets : List ChartDataset
  rowLookup : RowLookup
deriving Repr, DecidableEq

/-- Keep a row iff some cell is non-blank after stripping
(`any(cell.strip() for cell in row)`). -/
def keepRow (row : List String) : Bool :=
  row.any (fun c => pyStrip c != "")

/-- `_parse_csv`, starting from the `csv.reader` row list. -/
def parseCsv (input : List (List String)) : Except ParseError ParseResult :=
  let rows := input.filter keepRow
  match rows with
  | [] => .error .emptyInput
  | headers :: dataRows =>
    if headers.length < 2 then .error .malformedHeader
    else
      let periods := headers.drop 1
      let st := dataRows.foldl (processRow periods.length) ⟨[], [], []⟩
      if st.chartDatasets = [] then .error .noNumericData
      else .ok ⟨headers, st.tableRows, periods, st.chartDatasets, st.rowLookup⟩

/-! ## `_build_dataset_options` -/

/-- One entry of the dataset option list. -/
structure DatasetOption where
  label : String
  checked : Bool
deriving Repr, DecidableEq

def DEFAULT_HIGHLIGHT_LABEL : String := "自己資産"

/-- `_build_dataset_options`: one option per dataset label; the highlight
stays the default unless the default is absent and the label list is
non-empty, in which case it falls back to the first label. -/
def buildDatasetOptions (datasets : List ChartDataset) :
    List DatasetOption × String :=
  let labels := datasets.map (·.label)
  let highlight :=
    if ¬ labels.contains DEFAULT_HIGHLIGHT_LABEL ∧ labels ≠ [] then
      labels.headD DEFAULT_HIGHLIGHT_LABEL
    else DEFAULT_HIGHLIGHT_LABEL
  (labels.map (fun l => ⟨l, l == highlight⟩), highlight)

/-! ## `_build_radar_chart` -/

/-- The fixed canonical radar axes with their alias lists (`RADAR_ITEMS`). -/
def RADAR_ITEMS : List (String × List String) :=
  [("平均単価:P", ["P", "平均単価"]),
   ("変動単価:V", ["V", "変動単価"]),
   ("売上個数:Q", ["Q", "売上個数"]),
   ("売上高:PQ", ["PQ", "売上高"]),
   ("固定費:F", ["F", "固定費"]),
   ("経常利益:G", ["G", "経常利益"]),
   ("自己資本", ["自己資本"])]

/-- The first alias present as a key of the lookup (the key at which the
`for key in keys: if key in row_lookup: ...; break` loop stops). -/
def resolveKey (lookup : RowLookup) : List String → Option String
  | [] => none
  | k :: rest => if (lookup.lookup k).isSome then some k else resolveKey lookup rest

/-- The series resolved for an alias list (what the loop binds before
`break`), if any alias is present. -/
def resolveSeries (lookup : RowLookup) (keys : List String) : Option Series :=
  (resolveKey lookup keys).bind (fun k => lookup.lookup k)

/-- `[float(val) if val is not None else 0.0 for val in series]`. -/
def foldSeries (s : Series) : List ℚ :=
  s.map (fun v => v.getD 0)

/-- The `values` list computed per axis in the `axis_meta` loop
(empty when no alias resolves). -/
def axisValues (lookup : RowLookup) (keys : List String) : List ℚ :=
  match resolveSeries lookup keys with
  | some s => foldSeries s
  | none => []

/-- Python `max(xs, default=d)`. -/
def pyMax (xs : List ℚ) (d : ℚ) : ℚ :=
  match xs with
  | [] => d
  | v :: rest => rest.foldl max v

/-- One `axis_meta` entry. -/
structure AxisMeta where
  label : String
  max_value : ℚ
deriving Repr, DecidableEq

/-- `axis_meta` entry for one axis: `max([abs(v) for v in values], default=0.0)`,
then `max_value if max_value else 1.0` (`0.0` is falsy). -/
def axisMetaFor (lookup : RowLookup) (item : String × List String) : AxisMeta :=
  let m := pyMax ((axisValues lookup item.2).map (fun v => |v|)) 0
  ⟨item.1, if m ≠ 0 then m else 1⟩

/-- One `radar_datasets` entry. -/
structure RadarDataset where
  label : String
  data : List ℚ
  originalData : List ℚ
deriving Repr, DecidableEq

/-- The raw `value` used per (axis, period): the resolved series' entry at
the period index, with `None` or an out-of-range index folded to `0.0`. -/
def axisValueAt (lookup : RowLookup) (keys : List String) (i : Nat) : ℚ :=
  match resolveSeries lookup keys with
  | none => 0
  | some s =>
    match s[i]? with
    | some (some v) => v
    | _ => 0

/-- `(value / max_value) * 100 if max_value else 0.0`, with `max_value`
read back from the axis's meta entry (`axis_meta[axis_index]` is exactly
`axisMetaFor` of the axis, since `axis_meta` is built in `RADAR_ITEMS`
order). -/
def normalizedAt (lookup : RowLookup) (item : String × List String) (i : Nat) : ℚ :=
  let value := axisValueAt lookup item.2 i
  let m := (axisMetaFor lookup item).max_value
  if m ≠ 0 then (value / m) * 100 else 0

/-- The radar dataset for one period (index `i`, name `p`). -/
def radarDatasetFor (lookup : RowLookup) (i : Nat) (p : String) : RadarDataset :=
  ⟨p, RADAR_ITEMS.map (fun item => normalizedAt lookup item i),
      RADAR_ITEMS.map (fun item => axisValueAt lookup item.2 i)⟩

/-- `_build_radar_chart`: `(axis_labels, radar_datasets, axis_meta)`;
empty periods short-circuit to three empty lists. -/
def buildRadarChart (periods : List String) (lookup : RowLookup) :
    List String × List RadarDataset × List AxisMeta :=
  if periods = [] then ([], [], [])
  else
    (RADAR_ITEMS.map Prod.fst,
     periods.enum.map (fun ip => radarDatasetFor lookup ip.1 ip.2),
     RADAR_ITEMS.map (axisMetaFor lookup))

/-- Entrywise scaling of a series by a constant (`None` entries stay
`None`); the transformation quantified over by the radar
scale-invariance property. -/
def scaleSeries (k : ℚ) (s : Series) : Series :=
  s.map (Option.map (fun v => k * v))

/-- Replace the series stored under one key of the lookup, leaving every
other entry unchanged; the lookup modification quantified over by the
radar scale-invariance property. -/
def updateKey (m : RowLookup) (key : String) (f : Series → Series) : RowLookup :=
  m.map (fun kv => if kv.1 = key then (kv.1, f kv.2) else kv)

/-! ## Lookup lemmas -/

theorem lookup_cons_pair (k a : String) (b : Series) (es : RowLookup) :
    ((a, b) :: es).lookup k = if k = a then some b else es.lookup k := by
  rw [List.lookup_cons]
  by_cases h : k = a
  · rw [if_pos h]
    have hb : (k == a) = true := beq_iff_eq.mpr h
    rw [hb]
  · rw [if_neg h]
    have hb : (k == a) = false := beq_eq_false_iff_ne.mpr h
    rw [hb]

theorem lookup_dictSet_self (m : RowLookup) (k : String) (v : Series) :
    (dictSet m k v).lookup k = some v := by
  induction m with
  | nil => simp [dictSet, lookup_cons_pair]
  | cons kv rest ih =>
    obtain ⟨k₀, v₀⟩ := kv
    by_cases h : k₀ = k
    · simp [dictSet, h, lookup_cons_pair]
    · simp [dictSet, h, lookup_cons_pair, Ne.symm h, ih]

theorem lookup_dictSet_ne (m : RowLookup) (k k' : String) (v : Series)
    (h : k' ≠ k) : (dictSet m k v).lookup k' = m.lookup k' := by
  induction m with
  | nil => simp [dictSet, lookup_cons_pair, h]
  | cons kv rest ih =>
    obtain ⟨k₀, v₀⟩ := kv
    by_cases hk : k₀ = k
    · subst hk
      simp [dictSet, lookup_cons_pair, h]
    · simp [dictSet, hk, lookup_cons_pair, ih]

theorem lookup_append_of_isSome (m m' : RowLookup) (k : String)
    (h : (m.lookup k).isSome) : (m ++ m').lookup k = m.lookup k := by
  induction m with
  | nil => simp at h
  | cons kv rest ih =>
    obtain ⟨k₀, v₀⟩ := kv
    by_cases hk : k = k₀
    · simp [lookup_cons_pair, hk]
    · rw [lookup_cons_pair, if_neg hk] at h
      simp only [List.cons_append, lookup_cons_pair, if_neg hk]
      exact ih h

theorem lookup_dictSetdefault_of_isSome (m : RowLookup) (d : String) (v : Series)
    (k : String) (h : (m.lookup k).isSome) :
    (dictSetdefault m d v).lookup k = m.lookup k := by
  unfold dictSetdefault
  by_cases hd : (m.lookup d).isSome
  · simp [hd]
  · simp only [hd, if_false, Bool.false_eq_true]
    exact lookup_append_of_isSome m [(d, v)] k h

theorem lookup_registerDescriptor_of_isSome (v : Series) (m : RowLookup)
    (d : String) (k : String) (h : (m.lookup k).isSome) :
    (registerDescriptor v m d).lookup k = m.lookup k := by
  unfold registerDescriptor
  by_cases hd : pyStrip d = ""
  · simp [hd]
  · simp only [hd, if_false]
    exact lookup_dictSetdefault_of_isSome m (pyStrip d) v k h

theorem lookup_foldl_registerDescriptor_of_isSome (ds : List String)
    (m : RowLookup) (v : Series) (k : String) (h : (m.lookup k).isSome) :
    (ds.foldl (registerDescriptor v) m).lookup k = m.lookup k := by
  induction ds generalizing m with
  | nil => rfl
  | cons d rest ih =>
    have h₁ := lookup_registerDescriptor_of_isSome v m d k h
    have h₂ : ((registerDescriptor v m d).lookup k).isSome := by rw [h₁]; exact h
    simp only [List.foldl_cons]
    rw [ih _ h₂, h₁]

/-! ## Row-level frame lemmas -/

theorem processRow_lookup_ne (pc : Nat) (st : ParseState) (row : List String)
    (k : String) (hk : (st.rowLookup.lookup k).isSome)
    (hl : rowLabel row ≠ some k) :
    (processRow pc st row).rowLookup.lookup k = st.rowLookup.lookup k := by
  cases row with
  | nil => rfl
  | cons first values =>
    have hlbl : (if pyStrip first = "" then "未設定" else pyStrip first) ≠ k := by
      intro hc
      exact hl (by simp [rowLabel, hc])
    simp only [processRow]
    split
    · have h₁ : (dictSet st.rowLookup
          (if pyStrip first = "" then "未設定" else pyStrip first)
          ((numericSegmentOf pc values).map parseCell)).lookup k
          = st.rowLookup.lookup k :=
        lookup_dictSet_ne _ _ _ _ (Ne.symm hlbl)
      have h₂ : ((dictSet st.rowLookup
          (if pyStrip first = "" then "未設定" else pyStrip first)
          ((numericSegmentOf pc values).map parseCell)).lookup k).isSome := by
        rw [h₁]; exact hk
      rw [lookup_foldl_registerDescriptor_of_isSome _ _ _ _ h₂, h₁]
    · rfl

/-! ## Claim theorems -/

/-- C1 (counterexample): the first row registers descriptor `"D"` mapped to
`[1.0, 2.0]`; a later row whose primary label is `"D"` overwrites that
entry unconditionally, so after parsing the key `"D"` maps to the later
row's series `[3.0, 4.0]`, not the series of the row that introduced it. -/
theorem descriptorKey_overwritten_by_primary_label :
    (parseCsv [["L", "P1", "P2"], ["rowA", "D", "1", "2"], ["D", "3", "4"]]).map
        (fun r => r.rowLookup.lookup "D") = .ok (some [some 3, some 4]) ∧
    (some [some (3 : ℚ), some 4] : Option Series) ≠ some [some 1, some 2] := by
  constructor
  · simp +decide [parseCsv, keepRow, pyStrip, dropLeading, Char.isWhitespace,
      processRow, numericSegmentOf, parseCell, pyFloat?, parseMantissa, parseExp,
      readSign, digitsVal, dictSet, dictSetdefault, registerDescriptor,
      List.splitOn, List.splitOnP, List.splitOnP.go, List.filter_cons,
      List.filter_nil, Char.toLower, List.lookup, Except.map]
  · norm_num

/-- C1 (amended): once a key is present in `row_lookup`, no later row
whose primary label differs from that key ever changes its mapping —
descriptor registrations use `setdefault` and never overwrite.  (The
original claim fails only because a later row whose primary label equals
the key overwrites it unconditionally.) -/
theorem descriptorKey_stable_unless_relabeled (pc : Nat)
    (rows : List (List String)) (st : ParseState) (k : String)
    (hk : (st.rowLookup.lookup k).isSome)
    (hl : ∀ row ∈ rows, rowLabel row ≠ some k) :
    (rows.foldl (processRow pc) st).rowLookup.lookup k
      = st.rowLookup.lookup k := by
  induction rows generalizing st with
  | nil => rfl
  | cons r rest ih =>
    have h₁ := processRow_lookup_ne pc st r k hk (hl r (by simp))
    have h₂ : ((processRow pc st r).rowLookup.lookup k).isSome := by
      rw [h₁]; exact hk
    simp only [List.foldl_cons]
    rw [ih _ h₂ (fun row hrow => hl row (by simp [hrow])), h₁]

/-- Witness for `descriptorKey_stable_unless_relabeled` at a concrete
state and row list. -/
theorem descriptorKey_stable_unless_relabeled_witness :
    ((([("D", [some 1, some 2])] : RowLookup).lookup "D").isSome ∧
      ∀ row ∈ [["E", "5", "6"]], rowLabel row ≠ some "D") ∧
    (([["E", "5", "6"]].foldl (processRow 2)
        ⟨[], [], [("D", [some 1, some 2])]⟩).rowLookup.lookup "D"
      = ([("D", [some 1, some 2])] : RowLookup).lookup "D") :=
  ⟨⟨by decide, by decide⟩,
   descriptorKey_stable_unless_relabeled 2 [["E", "5", "6"]]
     ⟨[], [], [("D", [some 1, some 2])]⟩ "D" (by decide) (by decide)⟩

/-- C2 (counterexample): with an empty dataset list the options list is
empty but the returned highlight label is the default `"自己資産"`, not the
empty string claimed by the spec. -/
theorem buildDatasetOptions_empty_highlight_not_empty :
    (buildDatasetOptions []).1 = [] ∧ (buildDatasetOptions []).2 ≠ "" := by
  constructor
  · rfl
  · decide

/-- C2 (amended): with an empty dataset list, `_build_dataset_options`
returns an empty options list and the default highlight label
`"自己資産"` (the `not in labels and labels` guard is false for an empty
label list, so the default is never replaced). -/
theorem buildDatasetOptions_empty :
    buildDatasetOptions [] = ([], DEFAULT_HIGHLIGHT_LABEL) := rfl

/-- C4: when the surviving rows are exactly one header row with at least
2 cells, parsing fails with `NoNumericDataError` (not `EmptyInputError`
and not `MalformedHeaderError`): the data-row loop runs zero times and
`chart_datasets` stays empty. -/
theorem headerOnly_noNumericData (input : List (List String))
    (h : List String) (hf : input.filter keepRow = [h])
    (hl : 2 ≤ h.length) :
    parseCsv input = .error .noNumericData := by
  unfold parseCsv
  rw [hf]
  have h2 : ¬ h.length < 2 := Nat.not_lt.mpr hl
  simp [h2]

/-- Witness for `headerOnly_noNumericData` on the concrete input
`[["Label", "2021"]]`. -/
theorem headerOnly_noNumericData_witness :
    (List.filter keepRow [["Label", "2021"]] = [["Label", "2021"]] ∧
      2 ≤ (["Label", "2021"] : List String).length) ∧
    parseCsv [["Label", "2021"]] = .error .noNumericData :=
  ⟨⟨by decide, by decide⟩,
   headerOnly_noNumericData [["Label", "2021"]] ["Label", "2021"]
     (by decide) (by decide)⟩

/-- C6 (counterexample): on header `["L","P1","P2"]` (period count 2) and
data row `["A","1"]`, the emitted display row is `["A","1"]` verbatim:
its value cells have length 1, not the period count 2 — display rows are
not right-aligned or padded. -/
theorem displayRow_not_padded :
    (parseCsv [["L", "P1", "P2"], ["A", "1"]]).map
        (fun r => (r.rows, r.periods)) = .ok ([["A", "1"]], ["P1", "P2"]) ∧
    ¬ ((["A", "1"] : List String).drop 1).length
        = (["P1", "P2"] : List String).length := by
  constructor
  · simp +decide [parseCsv, keepRow, pyStrip, dropLeading, Char.isWhitespace,
      processRow, numericSegmentOf, parseCell, pyFloat?, parseMantissa, parseExp,
      readSign, digitsVal, dictSet, dictSetdefault, registerDescriptor,
      List.splitOn, List.splitOnP, List.splitOnP.go, List.filter_cons,
      List.filter_nil, Char.toLower, Except.map]
  · decide

/-- C6 (amended): every display row records the (trimmed, placeholdered)
label followed by the row's raw value cells verbatim — no padding and no
truncation to the period count; only the numeric segment used for the
chart data is right-aligned and padded. -/
theorem displayRow_verbatim (pc : Nat) (st : ParseState)
    (first : String) (values : List String) :
    (processRow pc st (first :: values)).tableRows
      = st.tableRows
        ++ [(if pyStrip first = "" then "未設定" else pyStrip first) :: values] := by
  simp only [processRow]
  split <;> rfl

/-- C9: calling `_build_radar_chart` with an empty period list returns
empty axis labels, empty radar datasets and empty axis meta, for every
lookup, without raising. -/
theorem buildRadar_empty_periods (lookup : RowLookup) :
    buildRadarChart [] lookup = ([], [], []) := rfl

/-- C10: a data row in which no numeric-segment cell parses as a number
leaves `row_lookup` completely unchanged — neither its primary label nor
any of its descriptor cells is registered, because the whole registration
block is guarded by `has_number`. -/
theorem noNumber_row_lookup_frame (pc : Nat) (st : ParseState)
    (row : List String)
    (h : ((numericSegmentOf pc (row.drop 1)).map parseCell).any Option.isSome
      = false) :
    (processRow pc st row).rowLookup = st.rowLookup := by
  cases row with
  | nil => rfl
  | cons first values =>
    have h' : ((numericSegmentOf pc values).map parseCell).any Option.isSome
        = false := by
      simpa using h
    simp only [processRow, h']
    rfl

/-- Witness for `noNumber_row_lookup_frame` on the fully non-numeric row
`["Y","a","b"]` against 2 periods. -/
theorem noNumber_row_lookup_frame_witness :
    (((numericSegmentOf 2 ((["Y", "a", "b"] : List String).drop 1)).map
        parseCell).any Option.isSome = false) ∧
    (processRow 2 ⟨[], [], [("X", [some 1])]⟩ ["Y", "a", "b"]).rowLookup
      = (⟨[], [], [("X", [some 1])]⟩ : ParseState).rowLookup :=
  ⟨by decide,
   noNumber_row_lookup_frame 2 ⟨[], [], [("X", [some 1])]⟩ ["Y", "a", "b"]
     (by decide)⟩

/-! ## Segment-length lemmas (C5, C6, C8) -/

theorem numericSegmentOf_length (pc : Nat) (hpc : 1 ≤ pc) (values : List String) :
    (numericSegmentOf pc values).length = pc := by
  unfold numericSegmentOf
  have h0 : pc ≠ 0 := by omega
  simp only [h0, if_true, ne_eq, not_false_eq_true, if_pos, List.length_append,
    List.length_replicate, List.length_drop]
  omega

theorem numericSegmentOf_short (pc : Nat) (hpc : 1 ≤ pc) (values : List String)
    (hle : values.length ≤ pc) :
    numericSegmentOf pc values
      = values ++ List.replicate (pc - values.length) "" := by
  unfold numericSegmentOf
  have h0 : pc ≠ 0 := by omega
  have hd : values.length - pc = 0 := by omega
  simp [h0, hd]

theorem numericSegmentOf_long (pc : Nat) (hpc : 1 ≤ pc) (values : List String)
    (hge : pc ≤ values.length) :
    numericSegmentOf pc values = values.drop (values.length - pc) := by
  unfold numericSegmentOf
  have h0 : pc ≠ 0 := by omega
  have hr : values.length - (values.length - pc) = pc := by omega
  simp [h0, hr]

theorem processRow_datasets_length (pc : Nat) (hpc : 1 ≤ pc) (st : ParseState)
    (row : List String)
    (ih : ∀ ds ∈ st.chartDatasets, ds.data.length = pc) :
    ∀ ds ∈ (processRow pc st row).chartDatasets, ds.data.length = pc := by
  cases row with
  | nil => exact ih
  | cons first values =>
    simp only [processRow]
    split
    · intro ds hds
      rcases List.mem_append.mp hds with h | h
      · exact ih ds h
      · have hd : ds = ⟨if pyStrip first = "" then "未設定" else pyStrip first,
            (numericSegmentOf pc values).map parseCell⟩ := by simpa using h
        rw [hd]
        simp [numericSegmentOf_length pc hpc]
    · exact ih

theorem foldl_datasets_length (pc : Nat) (hpc : 1 ≤ pc)
    (rows : List (List String)) (st : ParseState)
    (ih : ∀ ds ∈ st.chartDatasets, ds.data.length = pc) :
    ∀ ds ∈ (rows.foldl (processRow pc) st).chartDatasets,
      ds.data.length = pc := by
  induction rows generalizing st with
  | nil => exact ih
  | cons r rest ihr =>
    exact ihr _ (processRow_datasets_length pc hpc st r ih)

/-- C5: on every successful parse, every emitted chart dataset's data has
length exactly the period count; the numeric segment of a short row is the
row's value cells right-padded with empty strings, and the numeric segment
of a long row is exactly its last `periodCount` value cells. -/
theorem chartDataset_length_eq_periodCount (input : List (List String))
    (res : ParseResult) (h : parseCsv input = .ok res) :
    (∀ ds ∈ res.datasets, ds.data.length = res.periods.length) ∧
    (∀ values : List String, values.length ≤ res.periods.length →
      numericSegmentOf res.periods.length values
        = values ++ List.replicate (res.periods.length - values.length) "") ∧
    (∀ values : List String, res.periods.length ≤ values.length →
      numericSegmentOf res.periods.length values
        = values.drop (values.length - res.periods.length)) := by
  unfold parseCsv at h
  rcases hfil : input.filter keepRow with _ | ⟨headers, dataRows⟩ <;> rw [hfil] at h
  · exact absurd h (by simp)
  · dsimp only [] at h
    by_cases hlen : headers.length < 2
    · rw [if_pos hlen] at h
      exact absurd h (by simp)
    · rw [if_neg hlen] at h
      split at h
      · exact absurd h (by simp)
      · rw [Except.ok.injEq] at h
        subst h
        have hpc : 1 ≤ (headers.drop 1).length := by
          simp only [List.length_drop]
          omega
        refine ⟨?_, ?_, ?_⟩
        · exact foldl_datasets_length _ hpc dataRows ⟨[], [], []⟩ (by simp)
        · intro values hle
          exact numericSegmentOf_short _ hpc values hle
        · intro values hge
          exact numericSegmentOf_long _ hpc values hge

/-- Witness for `chartDataset_length_eq_periodCount` on a concrete parse. -/
theorem chartDataset_length_eq_periodCount_witness :
    parseCsv [["Label", "2021", "2022"], ["Rev", "100", "200"]]
      = .ok ⟨["Label", "2021", "2022"], [["Rev", "100", "200"]],
             ["2021", "2022"], [⟨"Rev", [some 100, some 200]⟩],
             [("Rev", [some 100, some 200])]⟩ ∧
    (∀ ds ∈ ({ headers := ["Label", "2021", "2022"],
               rows := [["Rev", "100", "200"]], periods := ["2021", "2022"],
               datasets := [⟨"Rev", [some 100, some 200]⟩],
               rowLookup := [("Rev", [some 100, some 200])] } : ParseResult).datasets,
        ds.data.length
          = ({ headers := ["Label", "2021", "2022"],
               rows := [["Rev", "100", "200"]], periods := ["2021", "2022"],
               datasets := [⟨"Rev", [some 100, some 200]⟩],
               rowLookup := [("Rev", [some 100, some 200])] } : ParseResult).periods.length) :=
  ⟨by simp +decide [parseCsv, keepRow, pyStrip, dropLeading, Char.isWhitespace,
      processRow, numericSegmentOf, parseCell, pyFloat?, parseMantissa, parseExp,
      readSign, digitsVal, dictSet, dictSetdefault, registerDescriptor,
      List.splitOn, List.splitOnP, List.splitOnP.go, List.filter_cons,
      List.filter_nil, Char.toLower],
   (chartDataset_length_eq_periodCount [["Label", "2021", "2022"], ["Rev", "100", "200"]]
      ⟨["Label", "2021", "2022"], [["Rev", "100", "200"]],
       ["2021", "2022"], [⟨"Rev", [some 100, some 200]⟩],
       [("Rev", [some 100, some 200])]⟩
      (by simp +decide [parseCsv, keepRow, pyStrip, dropLeading, Char.isWhitespace,
        processRow, numericSegmentOf, parseCell, pyFloat?, parseMantissa, parseExp,
        readSign, digitsVal, dictSet, dictSetdefault, registerDescriptor,
        List.splitOn, List.splitOnP, List.splitOnP.go, List.filter_cons,
        List.filter_nil, Char.toLower])).1⟩

/-- C8: a data row whose numeric segment contains at least one parseable
cell is emitted as a chart dataset (with `parseCell` mapping blank or
unparseable cells to `none` at their positions, never raising) and its
label is registered in `row_lookup` mapped to that series. -/
theorem partialNumeric_row_emitted (pc : Nat) (st : ParseState)
    (first : String) (values : List String)
    (h : ((numericSegmentOf pc values).map parseCell).any Option.isSome = true) :
    (processRow pc st (first :: values)).chartDatasets
      = st.chartDatasets
        ++ [⟨if pyStrip first = "" then "未設定" else pyStrip first,
             (numericSegmentOf pc values).map parseCell⟩] ∧
    (processRow pc st (first :: values)).rowLookup.lookup
        (if pyStrip first = "" then "未設定" else pyStrip first)
      = some ((numericSegmentOf pc values).map parseCell) := by
  simp only [processRow, h, if_true]
  constructor
  · trivial
  · have h₁ : (dictSet st.rowLookup
        (if pyStrip first = "" then "未設定" else pyStrip first)
        ((numericSegmentOf pc values).map parseCell)).lookup
        (if pyStrip first = "" then "未設定" else pyStrip first)
        = some ((numericSegmentOf pc values).map parseCell) :=
      lookup_dictSet_self _ _ _
    have h₂ : ((dictSet st.rowLookup
        (if pyStrip first = "" then "未設定" else pyStrip first)
        ((numericSegmentOf pc values).map parseCell)).lookup
        (if pyStrip first = "" then "未設定" else pyStrip first)).isSome := by
      rw [h₁]; rfl
    rw [lookup_foldl_registerDescriptor_of_isSome _ _ _ _ h₂, h₁]

/-- Witness for `partialNumeric_row_emitted`: the row `["X","n/a","50"]`
against 2 periods parses to `[none, some 50]` and is emitted and
registered. -/
theorem partialNumeric_row_emitted_witness :
    (((numericSegmentOf 2 ["n/a", "50"]).map parseCell).any Option.isSome = true) ∧
    ((numericSegmentOf 2 ["n/a", "50"]).map parseCell = [none, some 50]) ∧
    ((processRow 2 ⟨[], [], []⟩ ["X", "n/a", "50"]).chartDatasets
        = ([] : List ChartDataset)
          ++ [⟨if pyStrip "X" = "" then "未設定" else pyStrip "X",
               (numericSegmentOf 2 ["n/a", "50"]).map parseCell⟩] ∧
      (processRow 2 ⟨[], [], []⟩ ["X", "n/a", "50"]).rowLookup.lookup
          (if pyStrip "X" = "" then "未設定" else pyStrip "X")
        = some ((numericSegmentOf 2 ["n/a", "50"]).map parseCell)) :=
  ⟨by decide,
   by simp +decide [numericSegmentOf, parseCell, pyFloat?, parseMantissa,
     parseExp, readSign, digitsVal, pyStrip, dropLeading, Char.isWhitespace,
     List.splitOn, List.splitOnP, List.splitOnP.go, Char.toLower],
   partialNumeric_row_emitted 2 ⟨[], [], []⟩ "X" ["n/a", "50"] (by decide)⟩

/-! ## Radar normalization lemmas (C3, C7) -/

theorem foldl_max_init_le (l : List ℚ) (a : ℚ) : a ≤ l.foldl max a := by
  induction l generalizing a with
  | nil => exact le_refl a
  | cons b r ih => exact le_trans (le_max_left a b) (ih (max a b))

theorem le_foldl_max_of_mem (l : List ℚ) (a x : ℚ) (h : x ∈ l) :
    x ≤ l.foldl max a := by
  induction l generalizing a with
  | nil => cases h
  | cons b r ih =>
    rcases List.mem_cons.mp h with h | h
    · subst h
      exact le_trans (le_max_right a x) (foldl_max_init_le r (max a x))
    · exact ih (max a b) h

theorem le_pyMax_of_mem (l : List ℚ) (d x : ℚ) (h : x ∈ l) : x ≤ pyMax l d := by
  cases l with
  | nil => cases h
  | cons b r =>
    unfold pyMax
    rcases List.mem_cons.mp h with h | h
    · subst h
      exact foldl_max_init_le r x
    · exact le_foldl_max_of_mem r b x h

theorem pyMax_abs_nonneg (l : List ℚ) :
    0 ≤ pyMax (l.map (fun v => |v|)) 0 := by
  cases l with
  | nil => exact le_refl 0
  | cons b r =>
    calc (0 : ℚ) ≤ |b| := abs_nonneg b
    _ ≤ pyMax ((b :: r).map (fun v => |v|)) 0 :=
        le_pyMax_of_mem _ 0 _ (by simp)

theorem abs_axisValueAt_le (lookup : RowLookup) (keys : List String) (i : Nat) :
    |axisValueAt lookup keys i|
      ≤ pyMax ((axisValues lookup keys).map (fun v => |v|)) 0 := by
  unfold axisValueAt axisValues
  cases hres : resolveSeries lookup keys with
  | none => simp [pyMax]
  | some s =>
    have hnn := pyMax_abs_nonneg (foldSeries s)
    rcases hsi : s[i]? with _ | ⟨_ | v⟩ <;> simp only [hsi]
    · simpa using hnn
    · simpa using hnn
    · have hv : v ∈ foldSeries s := by
        have hs : (some v) ∈ s := List.getElem?_mem hsi
        exact List.mem_map.mpr ⟨some v, hs, rfl⟩
      simpa using le_pyMax_of_mem ((foldSeries s).map (fun v => |v|)) 0 |v|
        (List.mem_map.mpr ⟨v, hv, rfl⟩)

theorem axisMeta_max_value_pos (lookup : RowLookup)
    (item : String × List String) :
    0 < (axisMetaFor lookup item).max_value := by
  unfold axisMetaFor
  by_cases h : pyMax ((axisValues lookup item.2).map (fun v => |v|)) 0 = 0
  · simp [h]
  · have h0 := pyMax_abs_nonneg (axisValues lookup item.2)
    simp only [ne_eq, h, not_false_eq_true, if_pos]
    exact lt_of_le_of_ne h0 (Ne.symm h)

theorem abs_axisValueAt_le_max_value (lookup : RowLookup)
    (item : String × List String) (i : Nat) :
    |axisValueAt lookup item.2 i| ≤ (axisMetaFor lookup item).max_value := by
  have hle := abs_axisValueAt_le lookup item.2 i
  unfold axisMetaFor
  by_cases h : pyMax ((axisValues lookup item.2).map (fun v => |v|)) 0 = 0
  · rw [h] at hle
    simp only [h, ne_eq, not_true_eq_false, if_neg, not_false_eq_true]
    calc |axisValueAt lookup item.2 i| ≤ 0 := hle
    _ ≤ 1 := by norm_num
  · simpa [h] using hle

theorem axisValues_abs_le_max_value (lookup : RowLookup)
    (item : String × List String) :
    ∀ x ∈ axisValues lookup item.2, |x| ≤ (axisMetaFor lookup item).max_value := by
  intro x hx
  have hxm : |x| ≤ pyMax ((axisValues lookup item.2).map (fun v => |v|)) 0 :=
    le_pyMax_of_mem _ 0 _ (List.mem_map.mpr ⟨x, hx, rfl⟩)
  unfold axisMetaFor
  by_cases h : pyMax ((axisValues lookup item.2).map (fun v => |v|)) 0 = 0
  · rw [h] at hxm
    simp only [h, ne_eq, not_true_eq_false, if_neg, not_false_eq_true]
    calc |x| ≤ 0 := hxm
    _ ≤ 1 := by norm_num
  · simpa [h] using hxm

theorem normalizedAt_eq (lookup : RowLookup) (item : String × List String)
    (i : Nat) :
    normalizedAt lookup item i
      = axisValueAt lookup item.2 i / (axisMetaFor lookup item).max_value * 100 := by
  unfold normalizedAt
  have hpos := axisMeta_max_value_pos lookup item
  simp [ne_of_gt hpos]

theorem abs_normalizedAt_le_100 (lookup : RowLookup)
    (item : String × List String) (i : Nat) :
    |normalizedAt lookup item i| ≤ 100 := by
  rw [normalizedAt_eq]
  have hpos := axisMeta_max_value_pos lookup item
  have hb := abs_axisValueAt_le_max_value lookup item i
  have h1 : |axisValueAt lookup item.2 i| / (axisMetaFor lookup item).max_value ≤ 1 :=
    div_le_one_of_le₀ hb (le_of_lt hpos)
  calc |axisValueAt lookup item.2 i / (axisMetaFor lookup item).max_value * 100|
      = |axisValueAt lookup item.2 i| / (axisMetaFor lookup item).max_value * 100 := by
        rw [abs_mul, abs_div, abs_of_pos hpos]
        norm_num
  _ ≤ 1 * 100 := by
        exact mul_le_mul_of_nonneg_right h1 (by norm_num)
  _ = 100 := one_mul 100

theorem normalizedAt_neg_of_neg (lookup : RowLookup)
    (item : String × List String) (i : Nat)
    (h : axisValueAt lookup item.2 i < 0) :
    normalizedAt lookup item i < 0 := by
  rw [normalizedAt_eq]
  have hpos := axisMeta_max_value_pos lookup item
  have hdiv : axisValueAt lookup item.2 i / (axisMetaFor lookup item).max_value < 0 :=
    div_neg_of_neg_of_pos h hpos
  exact mul_neg_of_neg_of_pos hdiv (by norm_num)

theorem normalizedAt_pos_of_pos (lookup : RowLookup)
    (item : String × List String) (i : Nat)
    (h : 0 < axisValueAt lookup item.2 i) :
    0 < normalizedAt lookup item i := by
  rw [normalizedAt_eq]
  have hpos := axisMeta_max_value_pos lookup item
  exact mul_pos (div_pos h hpos) (by norm_num)

theorem getD_map_eq {α β : Type} (l : List α) (f : α → β) (j : Nat)
    (hj : j < l.length) (d₁ : α) (d₂ : β) :
    (l.map f).getD j d₂ = f (l.getD j d₁) := by
  induction l generalizing j with
  | nil => simp at hj
  | cons a r ih =>
    cases j with
    | zero => rfl
    | succ n => exact ih n (by simpa using hj)

/-- C3: for a non-empty period list, every radar dataset value at axis `j`
equals `(original / max_value) * 100` for that axis's `max_value`, which is
positive; the normalized value is sign-preserving, its absolute value
never exceeds 100, and `max_value` bounds the absolute value of every
entry of the axis's resolved series across all periods. -/
theorem radar_normalized_bounds (periods : List String) (lookup : RowLookup)
    (hp : periods ≠ []) (d : RadarDataset)
    (hd : d ∈ (buildRadarChart periods lookup).2.1)
    (j : Nat) (hj : j < RADAR_ITEMS.length) :
    0 < ((buildRadarChart periods lookup).2.2.getD j ⟨"", 1⟩).max_value ∧
    d.data.getD j 0
      = d.originalData.getD j 0
          / ((buildRadarChart periods lookup).2.2.getD j ⟨"", 1⟩).max_value * 100 ∧
    |d.data.getD j 0| ≤ 100 ∧
    (d.originalData.getD j 0 < 0 → d.data.getD j 0 < 0) ∧
    (0 < d.originalData.getD j 0 → 0 < d.data.getD j 0) ∧
    (∀ x ∈ axisValues lookup (RADAR_ITEMS.getD j ("", [])).2,
      |x| ≤ ((buildRadarChart periods lookup).2.2.getD j ⟨"", 1⟩).max_value) := by
  have hb : buildRadarChart periods lookup =
      (RADAR_ITEMS.map Prod.fst,
       periods.enum.map (fun ip => radarDatasetFor lookup ip.1 ip.2),
       RADAR_ITEMS.map (axisMetaFor lookup)) := by
    unfold buildRadarChart
    rw [if_neg hp]
  rw [hb] at hd ⊢
  dsimp only at hd ⊢
  obtain ⟨ip, hmem, rfl⟩ := List.mem_map.mp hd
  have hmeta : (RADAR_ITEMS.map (axisMetaFor lookup)).getD j ⟨"", 1⟩
      = axisMetaFor lookup (RADAR_ITEMS.getD j ("", [])) :=
    getD_map_eq _ _ j hj _ _
  have hdata : (radarDatasetFor lookup ip.1 ip.2).data.getD j 0
      = normalizedAt lookup (RADAR_ITEMS.getD j ("", [])) ip.1 := by
    unfold radarDatasetFor
    dsimp only
    exact getD_map_eq _ _ j hj _ _
  have horig : (radarDatasetFor lookup ip.1 ip.2).originalData.getD j 0
      = axisValueAt lookup (RADAR_ITEMS.getD j ("", [])).2 ip.1 := by
    unfold radarDatasetFor
    dsimp only
    exact getD_map_eq _ _ j hj _ _
  rw [hmeta, hdata, horig]
  exact ⟨axisMeta_max_value_pos lookup _,
    normalizedAt_eq lookup _ ip.1,
    abs_normalizedAt_le_100 lookup _ ip.1,
    normalizedAt_neg_of_neg lookup _ ip.1,
    normalizedAt_pos_of_pos lookup _ ip.1,
    axisValues_abs_le_max_value lookup _⟩

/-- Witness for `radar_normalized_bounds` at one period, the empty lookup
and axis 0. -/
theorem radar_normalized_bounds_witness :
    ((["2021"] : List String) ≠ [] ∧
      (⟨"2021", [0, 0, 0, 0, 0, 0, 0], [0, 0, 0, 0, 0, 0, 0]⟩ : RadarDataset)
        ∈ (buildRadarChart ["2021"] ([] : RowLookup)).2.1 ∧
      0 < RADAR_ITEMS.length) ∧
    (0 < ((buildRadarChart ["2021"] ([] : RowLookup)).2.2.getD 0 ⟨"", 1⟩).max_value ∧
      (⟨"2021", [0, 0, 0, 0, 0, 0, 0], [0, 0, 0, 0, 0, 0, 0]⟩ : RadarDataset).data.getD 0 0
        = (⟨"2021", [0, 0, 0, 0, 0, 0, 0], [0, 0, 0, 0, 0, 0, 0]⟩ : RadarDataset).originalData.getD 0 0
            / ((buildRadarChart ["2021"] ([] : RowLookup)).2.2.getD 0 ⟨"", 1⟩).max_value * 100 ∧
      |(⟨"2021", [0, 0, 0, 0, 0, 0, 0], [0, 0, 0, 0, 0, 0, 0]⟩ : RadarDataset).data.getD 0 0| ≤ 100 ∧
      ((⟨"2021", [0, 0, 0, 0, 0, 0, 0], [0, 0, 0, 0, 0, 0, 0]⟩ : RadarDataset).originalData.getD 0 0 < 0 →
        (⟨"2021", [0, 0, 0, 0, 0, 0, 0], [0, 0, 0, 0, 0, 0, 0]⟩ : RadarDataset).data.getD 0 0 < 0) ∧
      (0 < (⟨"2021", [0, 0, 0, 0, 0, 0, 0], [0, 0, 0, 0, 0, 0, 0]⟩ : RadarDataset).originalData.getD 0 0 →
        0 < (⟨"2021", [0, 0, 0, 0, 0, 0, 0], [0, 0, 0, 0, 0, 0, 0]⟩ : RadarDataset).data.getD 0 0) ∧
      (∀ x ∈ axisValues ([] : RowLookup) (RADAR_ITEMS.getD 0 ("", [])).2,
        |x| ≤ ((buildRadarChart ["2021"] ([] : RowLookup)).2.2.getD 0 ⟨"", 1⟩).max_value)) :=
  ⟨⟨by decide,
    by simp [buildRadarChart, RADAR_ITEMS, radarDatasetFor, normalizedAt,
      axisValueAt, axisMetaFor, axisValues, resolveSeries, resolveKey,
      foldSeries, pyMax, List.enum, List.enumFrom],
    by decide⟩,
   radar_normalized_bounds ["2021"] [] (by decide)
     ⟨"2021", [0, 0, 0, 0, 0, 0, 0], [0, 0, 0, 0, 0, 0, 0]⟩
     (by simp [buildRadarChart, RADAR_ITEMS, radarDatasetFor, normalizedAt,
       axisValueAt, axisMetaFor, axisValues, resolveSeries, resolveKey,
       foldSeries, pyMax, List.enum, List.enumFrom])
     0 (by decide)⟩

/-! ## Scale-invariance lemmas (C7) -/

theorem updateKey_cons (k₀ : String) (v₀ : Series) (rest : RowLookup)
    (key : String) (f : Series → Series) :
    updateKey ((k₀, v₀) :: rest) key f
      = (if k₀ = key then (k₀, f v₀) else (k₀, v₀)) :: updateKey rest key f := by
  simp only [updateKey, List.map_cons]

theorem lookup_updateKey (m : RowLookup) (key : String) (f : Series → Series)
    (k : String) :
    (updateKey m key f).lookup k
      = if k = key then (m.lookup k).map f else m.lookup k := by
  induction m with
  | nil => simp [updateKey]
  | cons kv rest ih =>
    obtain ⟨k₀, v₀⟩ := kv
    rw [updateKey_cons]
    by_cases h0 : k₀ = key
    · subst h0
      by_cases hk : k = k₀
      · subst hk
        simp [lookup_cons_pair]
      · simp [lookup_cons_pair, hk, ih]
    · by_cases hk : k = k₀
      · subst hk
        simp [lookup_cons_pair, h0]
      · simp only [if_neg h0, lookup_cons_pair, if_neg hk, ih]

theorem resolveKey_updateKey (m : RowLookup) (key : String)
    (f : Series → Series) (keys : List String) :
    resolveKey (updateKey m key f) keys = resolveKey m keys := by
  induction keys with
  | nil => rfl
  | cons a rest ih =>
    simp only [resolveKey]
    rw [lookup_updateKey]
    by_cases h : a = key
    · subst h
      rw [if_pos rfl, Option.isSome_map', ih]
    · rw [if_neg h, ih]

theorem resolveKey_lookup_isSome (m : RowLookup) (keys : List String)
    (kj : String) (h : resolveKey m keys = some kj) :
    (m.lookup kj).isSome := by
  induction keys with
  | nil => cases h
  | cons a rest ih =>
    unfold resolveKey at h
    by_cases ha : (m.lookup a).isSome
    · rw [if_pos ha] at h
      cases h
      exact ha
    · rw [if_neg ha] at h
      exact ih h

theorem resolveSeries_eq_lookup (m : RowLookup) (keys : List String)
    (kj : String) (h : resolveKey m keys = some kj) :
    resolveSeries m keys = m.lookup kj := by
  unfold resolveSeries
  rw [h]
  rfl

theorem resolveSeries_updateKey (m : RowLookup) (keys : List String)
    (kj : String) (f : Series → Series) (h : resolveKey m keys = some kj) :
    resolveSeries (updateKey m kj f) keys = (m.lookup kj).map f := by
  unfold resolveSeries
  rw [resolveKey_updateKey, h]
  simp [lookup_updateKey]

theorem foldSeries_scale (k : ℚ) (s : Series) :
    foldSeries (scaleSeries k s) = (foldSeries s).map (fun x => k * x) := by
  unfold foldSeries scaleSeries
  rw [List.map_map, List.map_map]
  apply List.map_congr_left
  intro o _
  cases o <;> simp

theorem foldl_max_scale (l : List ℚ) (k a : ℚ) (hk : 0 ≤ k) :
    (l.map (fun x => k * x)).foldl max (k * a) = k * l.foldl max a := by
  induction l generalizing a with
  | nil => rfl
  | cons b r ih =>
    simp only [List.map_cons, List.foldl_cons]
    rw [← mul_max_of_nonneg _ _ hk]
    exact ih (max a b)

theorem pyMax_abs_scale (l : List ℚ) (k : ℚ) (hk : 0 ≤ k) :
    pyMax ((l.map (fun x => k * x)).map (fun v => |v|)) 0
      = k * pyMax (l.map (fun v => |v|)) 0 := by
  have hcomm : (l.map (fun x => k * x)).map (fun v => |v|)
      = (l.map (fun v => |v|)).map (fun x => k * x) := by
    rw [List.map_map, List.map_map]
    apply List.map_congr_left
    intro x _
    simp [abs_mul, abs_of_nonneg hk]
  rw [hcomm]
  cases hl : l.map (fun v => |v|) with
  | nil => simp [pyMax]
  | cons b r =>
    simp only [List.map_cons, pyMax]
    exact foldl_max_scale r k b hk

theorem axisValueAt_updateKey_scale (lookup : RowLookup) (keys : List String)
    (kj : String) (k : ℚ) (i : Nat)
    (hres : resolveKey lookup keys = some kj) :
    axisValueAt (updateKey lookup kj (scaleSeries k)) keys i
      = k * axisValueAt lookup keys i := by
  obtain ⟨s, hsv⟩ :=
    Option.isSome_iff_exists.mp (resolveKey_lookup_isSome lookup keys kj hres)
  unfold axisValueAt
  rw [resolveSeries_updateKey lookup keys kj (scaleSeries k) hres, hsv,
    resolveSeries_eq_lookup lookup keys kj hres, hsv]
  simp only [Option.map_some']
  unfold scaleSeries
  rw [List.getElem?_map]
  rcases hsi : s[i]? with _ | ⟨_ | v⟩ <;> simp [hsi]

theorem axisValues_updateKey_scale (lookup : RowLookup) (keys : List String)
    (kj : String) (k : ℚ) (hres : resolveKey lookup keys = some kj) :
    axisValues (updateKey lookup kj (scaleSeries k)) keys
      = (axisValues lookup keys).map (fun x => k * x) := by
  obtain ⟨s, hsv⟩ :=
    Option.isSome_iff_exists.mp (resolveKey_lookup_isSome lookup keys kj hres)
  unfold axisValues
  rw [resolveSeries_updateKey lookup keys kj (scaleSeries k) hres, hsv,
    resolveSeries_eq_lookup lookup keys kj hres, hsv]
  simp only [Option.map_some']
  exact foldSeries_scale k s

theorem axisMetaFor_updateKey_scale (lookup : RowLookup)
    (item : String × List String) (kj : String) (k : ℚ) (hk : 0 < k)
    (hres : resolveKey lookup item.2 = some kj) :
    (axisMetaFor (updateKey lookup kj (scaleSeries k)) item).max_value
      = if pyMax ((axisValues lookup item.2).map (fun v => |v|)) 0 = 0 then 1
        else k * pyMax ((axisValues lookup item.2).map (fun v => |v|)) 0 := by
  unfold axisMetaFor
  rw [axisValues_updateKey_scale lookup item.2 kj k hres,
    pyMax_abs_scale _ k (le_of_lt hk)]
  by_cases h : pyMax ((axisValues lookup item.2).map (fun v => |v|)) 0 = 0
  · simp [h]
  · have hne : k * pyMax ((axisValues lookup item.2).map (fun v => |v|)) 0 ≠ 0 :=
      mul_ne_zero (ne_of_gt hk) h
    simp [h, hne]

theorem normalizedAt_updateKey_scale (lookup : RowLookup)
    (item : String × List String) (kj : String) (k : ℚ) (i : Nat) (hk : 0 < k)
    (hres : resolveKey lookup item.2 = some kj) :
    normalizedAt (updateKey lookup kj (scaleSeries k)) item i
      = normalizedAt lookup item i := by
  have hval := axisValueAt_updateKey_scale lookup item.2 kj k i hres
  rw [normalizedAt_eq, normalizedAt_eq, hval,
    axisMetaFor_updateKey_scale lookup item kj k hk hres]
  by_cases h : pyMax ((axisValues lookup item.2).map (fun v => |v|)) 0 = 0
  · have hv0 : axisValueAt lookup item.2 i = 0 := by
      have hle := abs_axisValueAt_le lookup item.2 i
      rw [h] at hle
      exact abs_eq_zero.mp (le_antisymm hle (abs_nonneg _))
    rw [if_pos h, hv0]
    simp
  · rw [if_neg h]
    have hmv : (axisMetaFor lookup item).max_value
        = pyMax ((axisValues lookup item.2).map (fun v => |v|)) 0 := by
      unfold axisMetaFor
      simp [h]
    rw [hmv, mul_div_mul_left _ _ (ne_of_gt hk)]

/-- C7: for every period list and lookup, if axis `j` resolves to key
`kj`, then multiplying every entry of the series stored at `kj` by a
positive constant `k` leaves axis `j`'s normalized value in every radar
dataset unchanged, while axis `j`'s originalData value is scaled by `k`. -/
theorem radar_scale_invariance (periods : List String) (lookup : RowLookup)
    (j : Nat) (hj : j < RADAR_ITEMS.length) (kj : String)
    (hres : resolveKey lookup (RADAR_ITEMS.getD j ("", [])).2 = some kj)
    (k : ℚ) (hk : 0 < k) (dIdx : Nat) :
    ((buildRadarChart periods (updateKey lookup kj (scaleSeries k))).2.1.getD dIdx
        ⟨"", [], []⟩).data.getD j 0
      = ((buildRadarChart periods lookup).2.1.getD dIdx ⟨"", [], []⟩).data.getD j 0 ∧
    ((buildRadarChart periods (updateKey lookup kj (scaleSeries k))).2.1.getD dIdx
        ⟨"", [], []⟩).originalData.getD j 0
      = k * ((buildRadarChart periods lookup).2.1.getD dIdx
          ⟨"", [], []⟩).originalData.getD j 0 := by
  by_cases hp : periods = []
  · subst hp
    constructor <;> simp [buildRadarChart]
  · have hb : ∀ lk : RowLookup, (buildRadarChart periods lk).2.1
        = periods.enum.map (fun ip => radarDatasetFor lk ip.1 ip.2) := by
      intro lk
      unfold buildRadarChart
      rw [if_neg hp]
    rw [hb, hb]
    by_cases hidx : dIdx < periods.enum.length
    · rw [getD_map_eq _ _ dIdx (by simpa using hidx) (0, ""),
        getD_map_eq _ _ dIdx (by simpa using hidx) (0, "")]
      unfold radarDatasetFor
      dsimp only
      have h1 : ∀ lk : RowLookup,
          (RADAR_ITEMS.map (fun item => normalizedAt lk item
              (periods.enum.getD dIdx (0, "")).1)).getD j 0
            = normalizedAt lk (RADAR_ITEMS.getD j ("", []))
                (periods.enum.getD dIdx (0, "")).1 :=
        fun lk => getD_map_eq _ _ j hj _ _
      have h2 : ∀ lk : RowLookup,
          (RADAR_ITEMS.map (fun item => axisValueAt lk item.2
              (periods.enum.getD dIdx (0, "")).1)).getD j 0
            = axisValueAt lk (RADAR_ITEMS.getD j ("", [])).2
                (periods.enum.getD dIdx (0, "")).1 :=
        fun lk => getD_map_eq _ _ j hj _ _
      rw [h1, h1, h2, h2]
      exact ⟨normalizedAt_updateKey_scale lookup _ kj k _ hk hres,
        axisValueAt_updateKey_scale lookup _ kj k _ hres⟩
    · have hlen : periods.enum.length ≤ dIdx := Nat.le_of_not_lt hidx
      have hd1 : (periods.enum.map (fun ip =>
          radarDatasetFor (updateKey lookup kj (scaleSeries k)) ip.1 ip.2)).getD
            dIdx ⟨"", [], []⟩ = ⟨"", [], []⟩ :=
        List.getD_eq_default _ _ (by simpa using hlen)
      have hd2 : (periods.enum.map (fun ip =>
          radarDatasetFor lookup ip.1 ip.2)).getD dIdx ⟨"", [], []⟩
            = ⟨"", [], []⟩ :=
        List.getD_eq_default _ _ (by simpa using hlen)
      rw [hd1, hd2]
      constructor <;> simp

/-- Witness for `radar_scale_invariance`: axis 0 resolves to `"P"`,
scaled by 3, checked at the first period of `["a","b"]`. -/
theorem radar_scale_invariance_witness :
    (0 < RADAR_ITEMS.length ∧
      resolveKey [("P", [some 2, some 4])] (RADAR_ITEMS.getD 0 ("", [])).2
        = some "P" ∧
      (0 : ℚ) < 3) ∧
    (((buildRadarChart ["a", "b"] (updateKey [("P", [some 2, some 4])] "P"
          (scaleSeries 3))).2.1.getD 0 ⟨"", [], []⟩).data.getD 0 0
        = ((buildRadarChart ["a", "b"] [("P", [some 2, some 4])]).2.1.getD 0
            ⟨"", [], []⟩).data.getD 0 0 ∧
      ((buildRadarChart ["a", "b"] (updateKey [("P", [some 2, some 4])] "P"
          (scaleSeries 3))).2.1.getD 0 ⟨"", [], []⟩).originalData.getD 0 0
        = 3 * ((buildRadarChart ["a", "b"] [("P", [some 2, some 4])]).2.1.getD 0
            ⟨"", [], []⟩).originalData.getD 0 0) :=
  ⟨⟨by decide, by decide, by norm_num⟩,
   radar_scale_invariance ["a", "b"] [("P", [some 2, some 4])] 0 (by decide)
     "P" (by decide) 3 (by norm_num) 0⟩

end Views
